import Mathlib

/-!
Verification of the webhook-endpoint resource reconciler
(`stripe/resource_stripe_webhook_endpoint.go`) of the
`terraform-provider-stripe` repository.

The four CRUD handlers are embedded as pure functions.  The two external
collaborators are passed in as oracles:
* the remote API client (`ClientAPI`) is a record of response functions for
  Get/New/Update/Del, and every handler additionally returns the list of
  remote calls it issued, in order, so that "makes zero network calls" and
  "sends exactly this request" are provable statements;
* the declared-state store (`ResourceData`) is a record of the schema's
  fields, with a per-field write-outcome oracle (`setErr`) standing for the
  fallibility of `d.Set`.
-/

namespace StripeProvider

/-- A diagnostic, as produced by `diag.FromErr`: an error message surfaced to
the caller instead of being thrown. -/
structure Diag where
  message : String
deriving Repr, DecidableEq

/-- The `diag.FromErr` conversion: wrap an error into a one-element-worth
diagnostic. -/
def Diag.fromErr (e : String) : Diag := ⟨e⟩

/-- The webhook-endpoint object returned by the remote Stripe API
(`stripe-go`'s `WebhookEndpoint`), restricted to the fields this resource
reads.  Metadata is an association list standing for the string-to-string
map. -/
structure WebhookEndpoint where
  ID : String
  Secret : String
  Status : String
  EnabledEvents : List String
  URL : String
  Description : String
  Metadata : List (String × String)
deriving Repr, DecidableEq

/-- The outbound request parameters (`stripe-go`'s `WebhookEndpointParams`,
restricted to the fields this resource sets).  In Go every field is a
pointer (or nil-able map/slice); a `none` here is a nil field, which is
omitted from the outbound request. -/
structure WebhookEndpointParams where
  URL : Option String := none
  EnabledEvents : Option (List String) := none
  Description : Option String := none
  Disabled : Option Bool := none
  Metadata : Option (List (String × String)) := none
deriving Repr, DecidableEq

/-- The `stripe-go` helper `Params.AddMetadata`: initialise the metadata map
if it is nil and add the key/value pair. -/
def addMetadata (p : WebhookEndpointParams) (k v : String) : WebhookEndpointParams :=
  { p with Metadata := some ((p.Metadata.getD []) ++ [(k, v)]) }

/-- The declared-state store for this resource: the terraform `ResourceData`
restricted to this resource's schema.  `id` and `secret` are computed
strings (zero value `""`); `url` and `enabled_events` are required;
`description`, `disabled` and `metadata` are optional, `none` meaning the
field is absent from the declared configuration. -/
structure ResourceData where
  id : String
  enabled_events : List String
  url : String
  description : Option String
  secret : String
  disabled : Option Bool
  metadata : Option (List (String × String))
deriving Repr, DecidableEq

/-- Modelled from the terraform-plugin-sdk collaborator's documented
semantics of `ResourceData.GetOk`: it returns the field's value (the type's
zero value when the field is absent) together with an `ok` flag that is
`false` whenever the value equals the type's zero value — so a field that is
present but holds the zero value (here the empty string) is reported exactly
like an absent one. -/
def getOkDescription (d : ResourceData) : String × Bool :=
  let v := d.description.getD ""
  (v, v != "")

/-- Modelled from the terraform-plugin-sdk collaborator: `GetOk` on the
boolean `disabled` field (zero value `false`, which is also its schema
default). -/
def getOkDisabled (d : ResourceData) : Bool × Bool :=
  let v := d.disabled.getD false
  (v, v != false)

/-- Modelled from the terraform-plugin-sdk collaborator: `GetOk` on the map
field `metadata` (zero value: the empty map). -/
def getOkMetadata (d : ResourceData) : List (String × String) × Bool :=
  let v := d.metadata.getD []
  (v, v != [])

/-- Modelled from the spec: the repository's field-coercion helpers (not
under `src/`) "convert the store's generic values to typed values"; reading
an absent optional string yields the zero value `""`. -/
def Coerce.string (o : Option String) : String := o.getD ""

/-- Modelled from the spec: field coercion for the boolean `disabled` field;
an absent field reads as its default `false`. -/
def Coerce.bool (o : Option Bool) : Bool := o.getD false

/-- Modelled from the spec: field coercion for the `metadata` map; an absent
field reads as the empty map. -/
def Coerce.map (o : Option (List (String × String))) : List (String × String) := o.getD []

/-- Modelled from the spec: the repository helper `CallSet` (not under
`src/`) takes the outcomes of several store writes and returns the failures
of all of them together as one diagnostic list (batch error policy), rather
than stopping at the first failure. -/
def CallSet (errs : List (Option String)) : List Diag :=
  errs.filterMap (fun e => e.map Diag.fromErr)

/-- A remote API call, recorded by the handlers in issue order. -/
inductive RemoteCall where
  | get (id : String)
  | new (params : WebhookEndpointParams)
  | update (id : String) (params : WebhookEndpointParams)
  | del (id : String)
deriving Repr, DecidableEq

/-- The remote API client collaborator: an oracle giving, for each possible
call, the response the remote service would return. -/
structure ClientAPI where
  get : String → Except String WebhookEndpoint
  new : WebhookEndpointParams → Except String WebhookEndpoint
  update : String → WebhookEndpointParams → Except String WebhookEndpoint
  del : String → Except String WebhookEndpoint

/-- One store write `d.Set(name, v)`: the per-field outcome oracle `setErr`
decides whether the write fails (returning its error and leaving the store
unchanged) or succeeds (applying `write`). -/
def setField (setErr : String → Option String) (name : String)
    (write : ResourceData → ResourceData) (d : ResourceData) :
    Option String × ResourceData :=
  match setErr name with
  | some e => (some e, d)
  | none => (none, write d)

/-- Embedding of `resourceStripeWebhookEndpointRead` (source lines 65-84):
fetch the remote object by the stored id; on failure surface the error; on
success project `disabled` from the remote status and write the five
resolved fields back, collecting all write failures with `CallSet`.  Returns
the diagnostics, the final store state and the remote calls issued. -/
def resourceStripeWebhookEndpointRead (c : ClientAPI) (setErr : String → Option String)
    (d : ResourceData) : List Diag × ResourceData × List RemoteCall :=
  match c.get d.id with
  | Except.error err => ([Diag.fromErr err], d, [RemoteCall.get d.id])
  | Except.ok webhookEndpoint =>
    let disabled := if webhookEndpoint.Status = "enabled" then false else true
    let r1 := setField setErr "enabled_events"
      (fun s => { s with enabled_events := webhookEndpoint.EnabledEvents }) d
    let r2 := setField setErr "url" (fun s => { s with url := webhookEndpoint.URL }) r1.2
    let r3 := setField setErr "description"
      (fun s => { s with description := some webhookEndpoint.Description }) r2.2
    let r4 := setField setErr "disabled" (fun s => { s with disabled := some disabled }) r3.2
    let r5 := setField setErr "metadata"
      (fun s => { s with metadata := some webhookEndpoint.Metadata }) r4.2
    (CallSet [r1.1, r2.1, r3.1, r4.1, r5.1], r5.2, [RemoteCall.get d.id])

/-- The creation request built by `resourceStripeWebhookEndpointCreate`
(source lines 93-105): `url` and `enabled_events` always present;
`description` set only when `GetOk` reports it set; the metadata entries
added one by one only when `GetOk` reports `metadata` set. -/
def createParams (d : ResourceData) : WebhookEndpointParams :=
  let params : WebhookEndpointParams :=
    { URL := some d.url, EnabledEvents := some d.enabled_events }
  let params :=
    if (getOkDescription d).2 then { params with Description := some (getOkDescription d).1 }
    else params
  if (getOkMetadata d).2 then
    ((getOkMetadata d).1).foldl (fun p kv => addMetadata p kv.1 kv.2) params
  else params

/-- Embedding of `resourceStripeWebhookEndpointCreate` (source lines
86-121): reject a pre-disabled endpoint before any remote call; build the
creation request; call New; on success persist the secret first and, if that
write fails, return its diagnostics at once without assigning the id; only
then assign the id and run a full Read. -/
def resourceStripeWebhookEndpointCreate (c : ClientAPI) (setErr : String → Option String)
    (d : ResourceData) : List Diag × ResourceData × List RemoteCall :=
  if (getOkDisabled d).2 && (getOkDisabled d).1 then
    ([Diag.fromErr "disabled can be set when updating existing webhook only"], d, [])
  else
    let params := createParams d
    match c.new params with
    | Except.error err => ([Diag.fromErr err], d, [RemoteCall.new params])
    | Except.ok webhookEndpoint =>
      let r := setField setErr "secret"
        (fun s => { s with secret := webhookEndpoint.Secret }) d
      let dg := CallSet [r.1]
      if dg.length > 0 then (dg, r.2, [RemoteCall.new params])
      else
        let d2 := { r.2 with id := webhookEndpoint.ID }
        let res := resourceStripeWebhookEndpointRead c setErr d2
        (res.1, res.2.1, RemoteCall.new params :: res.2.2)

/-- The update request built by `resourceStripeWebhookEndpointUpdate`
(source lines 125-149): each field is set only when the change-detection
collaborator `hasChange` reports it changed; for metadata the request's map
is first cleared to nil and the declared entries are then added one by
one. -/
def updateParams (hasChange : String → Bool) (d : ResourceData) : WebhookEndpointParams :=
  let params : WebhookEndpointParams := {}
  let params :=
    if hasChange "enabled_events" then { params with EnabledEvents := some d.enabled_events }
    else params
  let params := if hasChange "url" then { params with URL := some d.url } else params
  let params :=
    if hasChange "description" then { params with Description := some (Coerce.string d.description) }
    else params
  let params :=
    if hasChange "disabled" then { params with Disabled := some (Coerce.bool d.disabled) }
    else params
  if hasChange "metadata" then
    (Coerce.map d.metadata).foldl (fun p kv => addMetadata p kv.1 kv.2)
      { params with Metadata := none }
  else params

/-- Embedding of `resourceStripeWebhookEndpointUpdate` (source lines
123-157): build the partial request from the change set, call Update
unconditionally, and on success run a full Read to resynchronize. -/
def resourceStripeWebhookEndpointUpdate (c : ClientAPI) (setErr : String → Option String)
    (hasChange : String → Bool) (d : ResourceData) :
    List Diag × ResourceData × List RemoteCall :=
  let params := updateParams hasChange d
  match c.update d.id params with
  | Except.error err => ([Diag.fromErr err], d, [RemoteCall.update d.id params])
  | Except.ok _ =>
    let res := resourceStripeWebhookEndpointRead c setErr d
    (res.1, res.2.1, RemoteCall.update d.id params :: res.2.2)

/-- Embedding of `resourceStripeWebhookEndpointDelete` (source lines
159-169): call Del with the stored id; on failure propagate the error and
leave the store unchanged; on success clear the id and return no
diagnostics. -/
def resourceStripeWebhookEndpointDelete (c : ClientAPI) (d : ResourceData) :
    List Diag × ResourceData × List RemoteCall :=
  match c.del d.id with
  | Except.error err => ([Diag.fromErr err], d, [RemoteCall.del d.id])
  | Except.ok _ => ([], { d with id := "" }, [RemoteCall.del d.id])

/-! Helper lemmas shared by the claim theorems. -/

/-- A store write reports exactly the oracle's outcome for its field. -/
theorem setField_fst (setErr : String → Option String) (name : String)
    (write : ResourceData → ResourceData) (d : ResourceData) :
    (setField setErr name write d).1 = setErr name := by
  unfold setField
  cases setErr name <;> rfl

/-- A store write either fails (leaving the store as it was) or succeeds
(applying its write function). -/
theorem setField_snd (setErr : String → Option String) (name : String)
    (write : ResourceData → ResourceData) (d : ResourceData) :
    (setField setErr name write d).2 = if (setErr name).isSome then d else write d := by
  unfold setField
  cases setErr name <;> rfl

/-- Folding `addMetadata` over an entry list: the request's metadata stays
untouched for an empty list, and otherwise ends as the accumulated entries
followed by the list. -/
theorem addMetadata_foldl_metadata (l : List (String × String)) (p : WebhookEndpointParams) :
    (l.foldl (fun q kv => addMetadata q kv.1 kv.2) p).Metadata =
      if l.isEmpty then p.Metadata else some (p.Metadata.getD [] ++ l) := by
  induction l generalizing p with
  | nil => rfl
  | cons kv t ih =>
    rw [List.foldl_cons, ih]
    cases t with
    | nil => simp [addMetadata]
    | cons kv2 t2 => simp [addMetadata]

/-- Folding `addMetadata` leaves the request's URL untouched. -/
theorem addMetadata_foldl_URL (l : List (String × String)) (p : WebhookEndpointParams) :
    (l.foldl (fun q kv => addMetadata q kv.1 kv.2) p).URL = p.URL := by
  induction l generalizing p with
  | nil => rfl
  | cons kv t ih => simpa [addMetadata] using ih (addMetadata p kv.1 kv.2)

/-- Folding `addMetadata` leaves the request's event list untouched. -/
theorem addMetadata_foldl_EnabledEvents (l : List (String × String)) (p : WebhookEndpointParams) :
    (l.foldl (fun q kv => addMetadata q kv.1 kv.2) p).EnabledEvents = p.EnabledEvents := by
  induction l generalizing p with
  | nil => rfl
  | cons kv t ih => simpa [addMetadata] using ih (addMetadata p kv.1 kv.2)

/-- Folding `addMetadata` leaves the request's description untouched. -/
theorem addMetadata_foldl_Description (l : List (String × String)) (p : WebhookEndpointParams) :
    (l.foldl (fun q kv => addMetadata q kv.1 kv.2) p).Description = p.Description := by
  induction l generalizing p with
  | nil => rfl
  | cons kv t ih => simpa [addMetadata] using ih (addMetadata p kv.1 kv.2)

/-- Folding `addMetadata` leaves the request's disabled flag untouched. -/
theorem addMetadata_foldl_Disabled (l : List (String × String)) (p : WebhookEndpointParams) :
    (l.foldl (fun q kv => addMetadata q kv.1 kv.2) p).Disabled = p.Disabled := by
  induction l generalizing p with
  | nil => rfl
  | cons kv t ih => simpa [addMetadata] using ih (addMetadata p kv.1 kv.2)

/-- The create-time precondition check fires exactly on a declared
`disabled = true`. -/
theorem getOkDisabled_check (d : ResourceData) :
    ((getOkDisabled d).2 && (getOkDisabled d).1) = true ↔ d.disabled = some true := by
  unfold getOkDisabled
  cases h : d.disabled with
  | none => simp
  | some b => cases b <;> simp

/-- Read issues exactly one remote call: the Get on the stored id. -/
theorem read_remote_calls (c : ClientAPI) (setErr : String → Option String)
    (d : ResourceData) :
    (resourceStripeWebhookEndpointRead c setErr d).2.2 = [RemoteCall.get d.id] := by
  unfold resourceStripeWebhookEndpointRead
  cases c.get d.id <;> rfl

/-! Concrete sample collaborators and states, used by the witnesses. -/

/-- A sample remote object, as in the spec's end-to-end scenario. -/
def sampleEndpoint : WebhookEndpoint :=
  { ID := "we_1", Secret := "whsec_abc", Status := "enabled",
    EnabledEvents := ["charge.succeeded"], URL := "https://a.example/hook",
    Description := "", Metadata := [("team", "payments")] }

/-- A sample client whose every call succeeds with `sampleEndpoint`. -/
def sampleClientOk : ClientAPI :=
  { get := fun _ => Except.ok sampleEndpoint,
    new := fun _ => Except.ok sampleEndpoint,
    update := fun _ _ => Except.ok sampleEndpoint,
    del := fun _ => Except.ok sampleEndpoint }

/-- A sample declared state with the optional fields absent. -/
def sampleState : ResourceData :=
  { id := "we_1", enabled_events := ["charge.succeeded"],
    url := "https://a.example/hook", description := none, secret := "",
    disabled := none, metadata := none }

/-- A write-outcome oracle under which only the `url` write fails. -/
def setErrUrlFails : String → Option String :=
  fun f => if f == "url" then some "boom" else none

/-- A write-outcome oracle under which only the `secret` write fails. -/
def setErrSecretFails : String → Option String :=
  fun f => if f == "secret" then some "persist failed" else none

/-! The claim theorems. -/

/-- C2: for every declared state in which `disabled` is explicitly set to
`true`, Create returns the usage-error diagnostic, makes zero remote API
calls (no New, no Get), and leaves the store unchanged. -/
theorem create_rejects_disabled_true (c : ClientAPI) (setErr : String → Option String)
    (d : ResourceData) (h : d.disabled = some true) :
    resourceStripeWebhookEndpointCreate c setErr d =
      ([Diag.fromErr "disabled can be set when updating existing webhook only"], d, []) := by
  unfold resourceStripeWebhookEndpointCreate
  rw [if_pos ((getOkDisabled_check d).mpr h)]

/-- Witness for C2 at a concrete pre-disabled declared state. -/
theorem create_rejects_disabled_true_witness :
    resourceStripeWebhookEndpointCreate sampleClientOk setErrUrlFails
        { sampleState with disabled := some true } =
      ([Diag.fromErr "disabled can be set when updating existing webhook only"],
        { sampleState with disabled := some true }, []) :=
  create_rejects_disabled_true sampleClientOk setErrUrlFails
    { sampleState with disabled := some true } rfl

/-- C3: for every remote status returned by Get, a Read whose `disabled`
write succeeds stores `disabled = (status != "enabled")`: `false` exactly
when the remote status is `"enabled"`, `true` for every other value. -/
theorem read_disabled_projection (c : ClientAPI) (setErr : String → Option String)
    (d : ResourceData) (w : WebhookEndpoint)
    (hget : c.get d.id = Except.ok w) (hset : setErr "disabled" = none) :
    ((resourceStripeWebhookEndpointRead c setErr d).2.1).disabled =
      some (w.Status != "enabled") := by
  unfold resourceStripeWebhookEndpointRead
  rw [hget]
  simp only [setField_snd, hset, Option.isSome_none, Bool.false_eq_true, if_false]
  by_cases hs : w.Status = "enabled" <;> split <;> simp [hs, bne_iff_ne]

/-- Witness for C3: a concrete Read against an `"enabled"` remote object
stores `disabled = false`. -/
theorem read_disabled_projection_witness :
    ((resourceStripeWebhookEndpointRead sampleClientOk setErrUrlFails sampleState).2.1).disabled =
      some (sampleEndpoint.Status != "enabled") :=
  read_disabled_projection sampleClientOk setErrUrlFails sampleState sampleEndpoint rfl rfl

/-- C5: on a successful Get, Read attempts all five field writes and returns
the batch of every write failure together (in the fixed field order), not
just the first; in particular the last (`metadata`) write is still applied
when it succeeds, whatever happened to the earlier writes. -/
theorem read_collects_all_setter_failures (c : ClientAPI) (setErr : String → Option String)
    (d : ResourceData) (w : WebhookEndpoint)
    (hget : c.get d.id = Except.ok w) :
    (resourceStripeWebhookEndpointRead c setErr d).1 =
      CallSet [setErr "enabled_events", setErr "url", setErr "description",
        setErr "disabled", setErr "metadata"] ∧
    (setErr "metadata" = none →
      ((resourceStripeWebhookEndpointRead c setErr d).2.1).metadata = some w.Metadata) := by
  unfold resourceStripeWebhookEndpointRead
  rw [hget]
  refine ⟨by simp only [setField_fst], ?_⟩
  intro hm
  simp only [setField_snd, hm, Option.isSome_none, Bool.false_eq_true, if_false]

/-- Witness for C5: with only the `url` write failing, the diagnostics hold
exactly that failure and the later `metadata` write still lands. -/
theorem read_collects_all_setter_failures_witness :
    (resourceStripeWebhookEndpointRead sampleClientOk setErrUrlFails sampleState).1 =
      CallSet [none, some "boom", none, none, none] ∧
    ((resourceStripeWebhookEndpointRead sampleClientOk setErrUrlFails sampleState).2.1).metadata =
      some sampleEndpoint.Metadata := by
  have h := read_collects_all_setter_failures sampleClientOk setErrUrlFails sampleState
    sampleEndpoint rfl
  exact ⟨h.1, h.2 rfl⟩

/-- C7: Delete calls the remote Del on the stored id; on success it clears
the stored id to `""` and returns no diagnostics; on failure it propagates
the error unmodified and leaves the store (the id included) unchanged. -/
theorem delete_clears_id (c : ClientAPI) (d : ResourceData) :
    (∀ w, c.del d.id = Except.ok w →
      resourceStripeWebhookEndpointDelete c d =
        ([], { d with id := "" }, [RemoteCall.del d.id])) ∧
    (∀ e, c.del d.id = Except.error e →
      resourceStripeWebhookEndpointDelete c d =
        ([Diag.fromErr e], d, [RemoteCall.del d.id])) := by
  constructor <;> intro x h <;> unfold resourceStripeWebhookEndpointDelete <;> rw [h]

/-- Witness for C7: a concrete successful Delete clears the id. -/
theorem delete_clears_id_witness :
    resourceStripeWebhookEndpointDelete sampleClientOk sampleState =
      ([], { sampleState with id := "" }, [RemoteCall.del sampleState.id]) :=
  (delete_clears_id sampleClientOk sampleState).1 sampleEndpoint rfl

/-- C8: Read never writes `secret` or `id`: for every store state, every
write-outcome oracle and every remote response, the stored secret and id
after Read are exactly what they were before. -/
theorem read_preserves_secret_and_id (c : ClientAPI) (setErr : String → Option String)
    (d : ResourceData) :
    ((resourceStripeWebhookEndpointRead c setErr d).2.1).secret = d.secret ∧
    ((resourceStripeWebhookEndpointRead c setErr d).2.1).id = d.id := by
  unfold resourceStripeWebhookEndpointRead
  cases hget : c.get d.id with
  | error e => exact ⟨rfl, rfl⟩
  | ok w =>
    simp only [setField_snd]
    constructor <;> (split <;> split <;> split <;> split <;> split <;> rfl)

/-- C1 counterexample: with the change set reporting only `metadata` as
changed and the declared metadata map empty, the outbound update request
omits metadata entirely — a changed field missing from the request refutes
included-iff-changed as stated. -/
theorem update_partial_patch_counterexample :
    (fun f => f == "metadata") "metadata" = true ∧
    (updateParams (fun f => f == "metadata")
      { id := "we_1", enabled_events := ["charge.succeeded"],
        url := "https://a.example/hook", description := none, secret := "",
        disabled := none, metadata := some [] }).Metadata = none :=
  ⟨rfl, rfl⟩

/-- C1 (amended): in the update request, each of `enabled_events`, `url`,
`description`, `disabled` is included iff the change-detection collaborator
reports it changed, and then carries the declared value; `metadata` is
included iff it is reported changed and the declared metadata map is
non-empty (a metadata change to the empty map sends no metadata field).  In
particular, for a url-only change the request carries `url` and omits the
other four fields. -/
theorem update_partial_patch (hc : String → Bool) (d : ResourceData) :
    ((updateParams hc d).EnabledEvents =
      if hc "enabled_events" then some d.enabled_events else none) ∧
    ((updateParams hc d).URL = if hc "url" then some d.url else none) ∧
    ((updateParams hc d).Description =
      if hc "description" then some (Coerce.string d.description) else none) ∧
    ((updateParams hc d).Disabled =
      if hc "disabled" then some (Coerce.bool d.disabled) else none) ∧
    ((updateParams hc d).Metadata =
      if hc "metadata" && !(Coerce.map d.metadata).isEmpty then some (Coerce.map d.metadata)
      else none) := by
  unfold updateParams
  by_cases h1 : hc "enabled_events" <;> by_cases h2 : hc "url" <;>
    by_cases h3 : hc "description" <;> by_cases h4 : hc "disabled" <;>
      by_cases h5 : hc "metadata" <;>
        by_cases h6 : (Coerce.map d.metadata).isEmpty <;>
          simp [h1, h2, h3, h4, h5, h6, addMetadata_foldl_metadata,
            addMetadata_foldl_URL, addMetadata_foldl_EnabledEvents,
            addMetadata_foldl_Description, addMetadata_foldl_Disabled]

/-- C4: after a successful remote New, Create persists the secret first; if
that write fails, Create returns that failure at once with the store (its id
included) exactly as before — an empty id stays empty — and no Read; only
when the secret write succeeds does Create assign the id and run a full
Read on the updated store. -/
theorem create_secret_before_id (c : ClientAPI) (setErr : String → Option String)
    (d : ResourceData) (w : WebhookEndpoint)
    (hpre : d.disabled ≠ some true)
    (hnew : c.new (createParams d) = Except.ok w) :
    (∀ e, setErr "secret" = some e →
      resourceStripeWebhookEndpointCreate c setErr d =
        ([Diag.fromErr e], d, [RemoteCall.new (createParams d)])) ∧
    (setErr "secret" = none →
      resourceStripeWebhookEndpointCreate c setErr d =
        ((resourceStripeWebhookEndpointRead c setErr
            { d with secret := w.Secret, id := w.ID }).1,
         (resourceStripeWebhookEndpointRead c setErr
            { d with secret := w.Secret, id := w.ID }).2.1,
         RemoteCall.new (createParams d) ::
           (resourceStripeWebhookEndpointRead c setErr
              { d with secret := w.Secret, id := w.ID }).2.2)) := by
  have hcond : ¬(((getOkDisabled d).2 && (getOkDisabled d).1) = true) :=
    fun hx => hpre ((getOkDisabled_check d).mp hx)
  unfold resourceStripeWebhookEndpointCreate
  rw [if_neg hcond]
  constructor
  · intro e he
    simp [hnew, setField, he, CallSet]
  · intro he
    simp [hnew, setField, he, CallSet]

/-- Witness for C4: with a failing secret write, a concrete Create returns
that failure, leaves the store untouched and stops after the New call. -/
theorem create_secret_before_id_witness :
    resourceStripeWebhookEndpointCreate sampleClientOk setErrSecretFails sampleState =
      ([Diag.fromErr "persist failed"], sampleState,
        [RemoteCall.new (createParams sampleState)]) :=
  (create_secret_before_id sampleClientOk setErrSecretFails sampleState sampleEndpoint
    (by decide) rfl).1 "persist failed" rfl

/-- C6 counterexample: a declared state whose `description` is present but
equal to the empty string; the claim says the creation request must then
contain the description, yet the built request omits it — the presence
check conflates a present empty string with absence. -/
theorem create_request_fields_counterexample :
    ({ id := "", enabled_events := ["charge.succeeded"],
       url := "https://a.example/hook", description := some "", secret := "",
       disabled := none, metadata := none } : ResourceData).description = some "" ∧
    (createParams
      { id := "", enabled_events := ["charge.succeeded"],
        url := "https://a.example/hook", description := some "", secret := "",
        disabled := none, metadata := none }).Description = none :=
  ⟨rfl, rfl⟩

/-- C6 (amended): the creation request always carries `url` and
`enabled_events`; it carries `description` iff the declared description is
present and non-empty, and carries the declared metadata entries iff the
declared metadata map is present and non-empty — the store's presence check
reports a zero value (empty string, empty map) as unset, so a
present-but-zero optional field is omitted exactly like an absent one. -/
theorem create_request_fields (d : ResourceData) :
    (createParams d).URL = some d.url ∧
    (createParams d).EnabledEvents = some d.enabled_events ∧
    ((createParams d).Description =
      if d.description.getD "" = "" then none else some (d.description.getD "")) ∧
    ((createParams d).Metadata =
      if (d.metadata.getD []).isEmpty then none else some (d.metadata.getD [])) := by
  unfold createParams getOkDescription getOkMetadata
  by_cases h1 : d.description.getD "" = "" <;>
    by_cases h2 : d.metadata.getD [] = [] <;>
      simp [h1, h2, addMetadata_foldl_metadata, addMetadata_foldl_URL,
        addMetadata_foldl_EnabledEvents, addMetadata_foldl_Description]

/-- C9: every Update invocation issues exactly one remote Update call
carrying the built request — on success followed by exactly the Read's Get
call, on failure alone — and an empty change set still sends the request,
then with an empty parameter set. -/
theorem update_always_calls_remote (c : ClientAPI) (setErr : String → Option String)
    (hc : String → Bool) (d : ResourceData) :
    (∀ w, c.update d.id (updateParams hc d) = Except.ok w →
      (resourceStripeWebhookEndpointUpdate c setErr hc d).2.2 =
        [RemoteCall.update d.id (updateParams hc d), RemoteCall.get d.id]) ∧
    (∀ e, c.update d.id (updateParams hc d) = Except.error e →
      (resourceStripeWebhookEndpointUpdate c setErr hc d).2.2 =
        [RemoteCall.update d.id (updateParams hc d)]) ∧
    ((∀ f, hc f = false) → updateParams hc d = {}) := by
  refine ⟨?_, ?_, ?_⟩
  · intro w h
    unfold resourceStripeWebhookEndpointUpdate
    simp [h, read_remote_calls]
  · intro e h
    unfold resourceStripeWebhookEndpointUpdate
    simp [h]
  · intro hall
    unfold updateParams
    simp [hall]

/-- Witness for C9: a concrete Update with an all-unchanged change set still
issues the remote Update (with the empty parameter set) followed by the
Read's Get. -/
theorem update_always_calls_remote_witness :
    (resourceStripeWebhookEndpointUpdate sampleClientOk setErrUrlFails (fun _ => false)
        sampleState).2.2 =
      [RemoteCall.update sampleState.id (updateParams (fun _ => false) sampleState),
        RemoteCall.get sampleState.id] ∧
    updateParams (fun _ => false) sampleState = {} := by
  have h := update_always_calls_remote sampleClientOk setErrUrlFails (fun _ => false) sampleState
  exact ⟨h.1 sampleEndpoint rfl, h.2.2 (fun f => rfl)⟩

/-- C10: the creation request never carries a disabled flag, and for a
declared state whose `disabled` is absent or explicitly `false` the
precondition check passes — an explicit `false` is treated exactly like
unset — so Create's first remote call is the New with that request. -/
theorem create_never_sends_disabled (c : ClientAPI) (setErr : String → Option String)
    (d : ResourceData) (h : d.disabled = none ∨ d.disabled = some false) :
    (createParams d).Disabled = none ∧
    (resourceStripeWebhookEndpointCreate c setErr d).2.2.head? =
      some (RemoteCall.new (createParams d)) := by
  have hcond : ¬(((getOkDisabled d).2 && (getOkDisabled d).1) = true) := by
    intro hx
    have h2 := (getOkDisabled_check d).mp hx
    rcases h with hd | hd <;> rw [hd] at h2 <;> simp at h2
  refine ⟨?_, ?_⟩
  · unfold createParams
    by_cases h1 : (getOkDescription d).2 <;> by_cases h2 : (getOkMetadata d).2 <;>
      simp [h1, h2, addMetadata_foldl_Disabled]
  · unfold resourceStripeWebhookEndpointCreate
    rw [if_neg hcond]
    cases hnew : c.new (createParams d) with
    | error e => simp [hnew]
    | ok w =>
      cases hs : setErr "secret" <;> simp [hnew, setField, hs, CallSet]

/-- Witness for C10 at a concrete declared state with `disabled` absent. -/
theorem create_never_sends_disabled_witness :
    (createParams sampleState).Disabled = none ∧
    (resourceStripeWebhookEndpointCreate sampleClientOk setErrUrlFails
        sampleState).2.2.head? =
      some (RemoteCall.new (createParams sampleState)) :=
  create_never_sends_disabled sampleClientOk setErrUrlFails sampleState (Or.inl rfl)

end StripeProvider
